import Mathlib

/-!
# Verification of the Smart Patient Flow Pre-Visit Assistant core

Shallow embedding of the retrieval-and-triage decision engine:
`src/data_processor.py`, `src/vector_db.py`, `src/rag_pipeline.py`,
`src/patient_intake.py`.  Python floats are modelled with `ℚ` for the
intermediate arithmetic and with `ℝ` where a square root is taken;
Python `None`-able fields are modelled with `Option`; Python exceptions
are modelled with `Except`.
-/

namespace SPF

/-! ## Python string / number primitives used by the source -/

/-- `startsWithChars n h` is true when `n` is a prefix of `h`. -/
def startsWithChars : List Char → List Char → Bool
  | [], _ => true
  | _ :: _, [] => false
  | a :: as, b :: bs => a = b && startsWithChars as bs

/-- `substrOf n h` is true when `n` occurs contiguously inside `h`. -/
def substrOf : List Char → List Char → Bool
  | n, [] => n.isEmpty
  | n, c :: rest => startsWithChars n (c :: rest) || substrOf n rest

/-- Python `needle in haystack` on strings: contiguous substring test. -/
def containsStr (haystack needle : String) : Bool :=
  substrOf needle.data haystack.data

/-- Python `str.lower()` (semantically `String.toLower`, implemented by
structural recursion on the character list so that it reduces). -/
def pyLower (s : String) : String :=
  String.mk (s.data.map Char.toLower)

/-- Python `str.upper()`. -/
def pyUpper (s : String) : String :=
  String.mk (s.data.map Char.toUpper)

/-- Python `str.strip()` with no argument: drop whitespace at both ends. -/
def pyStrip (s : String) : String :=
  String.mk (((s.data.dropWhile Char.isWhitespace).reverse.dropWhile
    Char.isWhitespace).reverse)

/-- Helper of `pySplit`: scan the characters, `acc` holding the current
word reversed. -/
def pySplitAux : List Char → List Char → List String
  | [], acc => if acc.isEmpty then [] else [String.mk acc.reverse]
  | c :: cs, acc =>
    if c.isWhitespace then
      (if acc.isEmpty then [] else [String.mk acc.reverse]) ++ pySplitAux cs []
    else pySplitAux cs (c :: acc)

/-- Python `str.split()` with no argument: split on whitespace runs,
dropping empty pieces. -/
def pySplit (s : String) : List String :=
  pySplitAux s.data []

/-- Helper of `pySplitOn`: fuel-based scan (fuel bounds the remaining
length; each step consumes at least one character). -/
def pySplitOnAux (sep : List Char) : Nat → List Char → List Char → List (List Char)
  | 0, rest, acc => [acc.reverse ++ rest]
  | _ + 1, [], acc => [acc.reverse]
  | fuel + 1, c :: cs, acc =>
    if startsWithChars sep (c :: cs) then
      acc.reverse :: pySplitOnAux sep fuel ((c :: cs).drop sep.length) []
    else pySplitOnAux sep fuel cs (c :: acc)

/-- Python `str.split(sep)` with a non-empty separator. -/
def pySplitOn (s sep : String) : List String :=
  (pySplitOnAux sep.data s.data.length s.data []).map String.mk

/-- Python `int(s)` on an optionally signed ASCII digit string with
surrounding whitespace; other strings raise `ValueError`, modelled as
`none`.  (Underscore digit separators and non-ASCII digits accepted by
CPython are outside the inputs this program sees and are not modelled.) -/
def pyParseInt (s : String) : Option Int :=
  let t := pyStrip s
  let signAndDigits : Int × List Char :=
    match t.data with
    | '-' :: rest => (-1, rest)
    | '+' :: rest => (1, rest)
    | l => (1, l)
  if signAndDigits.2 ≠ [] ∧ signAndDigits.2.all (fun c => c.isDigit) then
    some (signAndDigits.1 *
      (signAndDigits.2.foldl (fun acc c => acc * 10 + ((c.toNat : Int) - ('0'.toNat : Int))) 0))
  else none

/-- Python `round(x, 2)`: round to 2 decimal places, ties to even. -/
def pyRound2 (x : ℚ) : ℚ :=
  let y := x * 100
  let f : ℤ := ⌊y⌋
  let r := y - f
  let n : ℤ :=
    if r < 1/2 then f
    else if 1/2 < r then f + 1
    else if f % 2 = 0 then f else f + 1
  (n : ℚ) / 100

/-- Python `str(o)` on an `Optional[int]` (`None` prints as `"None"`). -/
def pyShowOptInt : Option Int → String
  | none => "None"
  | some n => toString n

/-- Python `str(o)` on an `Optional[str]`. -/
def pyShowOptStr : Option String → String
  | none => "None"
  | some s => s

/-! ## Decimal rendering of a natural number (Python `str(i)` inside the
f-string `f"{doc.source}_{i}"`), with a fuel-based recursion so that it
reduces definitionally. -/

/-- Big-endian decimal digits of `n`, with explicit fuel. -/
def decDigits : Nat → Nat → List Nat
  | 0, _ => []
  | fuel + 1, n => if n < 10 then [n] else decDigits fuel (n / 10) ++ [n % 10]

/-- Decimal rendering of `n` (the model of Python `str(i)` for `i ≥ 0`). -/
def decRepr (n : Nat) : String :=
  String.mk ((decDigits (n + 1) n).map Nat.digitChar)

/-- Value of a big-endian digit list. -/
def digitsVal (ds : List Nat) : Nat :=
  ds.foldl (fun acc d => acc * 10 + d) 0

/-! ## RAG pipeline (`src/rag_pipeline.py`)

The vector search itself lives in the external ChromaDB library; the
pipeline sees it only through `retrieve_context`, which yields a list of
`(content, metadata, distance)` entries.  We therefore model retrieval
as a function parameter `retrieve : String → List ContextDoc`. -/

/-- The metadata fields of a retrieved document that the pipeline reads
(`metadata.get(...)` returns `None` for an absent key, hence `Option`). -/
structure DocMetadata where
  mtype : Option String
  urgency_level : Option String
  department : Option String
  priority : Option Int
  symptoms : Option String
  warning_signs : Option String
deriving Repr, DecidableEq

/-- One entry of `retrieve_context`'s result. -/
structure ContextDoc where
  content : String
  metadata : DocMetadata
  distance : ℚ
deriving Repr, DecidableEq

/-- One entry of `RAGResponse.sources`. -/
structure SourceDescriptor where
  stype : String
  content_preview : String
  relevance_score : ℚ
deriving Repr, DecidableEq

/-- The triage-hint map built by `extract_triage_info`.  The Python dict
always carries all five keys; each value is whatever `metadata.get`
returned, hence `Option`s. -/
structure TriageInfo where
  urgency_level : Option String
  department : Option String
  priority : Option Int
  symptoms : Option String
  warning_signs : Option String
deriving Repr, DecidableEq

/-- `RAGResponse` dataclass. -/
structure RAGResponse where
  answer : String
  sources : List SourceDescriptor
  confidence : ℚ
  triage_info : Option TriageInfo := none
  next_steps : Option (List String) := none
deriving Repr, DecidableEq

/-- `format_context`. -/
def formatContext (contextDocs : List ContextDoc) : String :=
  if contextDocs = [] then "No relevant information found in the knowledge base."
  else
    String.intercalate "\n\n" (contextDocs.map (fun doc =>
      let sourceType := doc.metadata.mtype.getD "unknown"
      if sourceType = "triage" then "TRIAGE INFO: " ++ doc.content
      else if sourceType = "department" then "DEPARTMENT INFO: " ++ doc.content
      else if sourceType = "insurance" then "INSURANCE INFO: " ++ doc.content
      else if sourceType = "faq" then "FAQ: " ++ doc.content
      else if sourceType = "hospital_info" then "HOSPITAL INFO: " ++ doc.content
      else doc.content))

/-- `extract_triage_info`: first retrieved document whose metadata type
is `"triage"`. -/
def extractTriageInfo : List ContextDoc → Option TriageInfo
  | [] => none
  | doc :: rest =>
    if doc.metadata.mtype = some "triage" then
      some { urgency_level := doc.metadata.urgency_level,
             department := doc.metadata.department,
             priority := doc.metadata.priority,
             symptoms := doc.metadata.symptoms,
             warning_signs := doc.metadata.warning_signs }
    else extractTriageInfo rest

/-- The disclaimer line shared by the simple-response templates. -/
def simpleDisclaimer : String :=
  "DISCLAIMER: This is not medical advice. Please consult a qualified healthcare provider."

/-- `generate_simple_response`: the rule-based answer composer. -/
def generateSimpleResponse (query context : String) : String :=
  let queryLower := pyLower query
  let emergencyKws := ["severe", "emergency", "urgent", "chest pain", "difficulty breathing",
    "unconscious"]
  if emergencyKws.any (fun kw => containsStr queryLower kw) then
    "ðŸš¨ IMPORTANT: Based on your symptoms, you may need immediate medical attention. \n            \nIf you\x27re experiencing severe symptoms, please:\n- Call 911 for emergency care\n- Go to the nearest emergency room\n- Don\x27t wait for an appointment\n\nFor urgent but non-emergency symptoms, visit our Urgent Care department.\n\nDISCLAIMER: This is not medical advice. Please consult a qualified healthcare provider for proper medical evaluation."
  else if containsStr queryLower "insurance" || containsStr queryLower "copay" ||
      containsStr queryLower "coverage" then
    "Based on our records:\n\n" ++ context ++
    "\n\nâœ… We accept most major insurance plans\nðŸ’° Copays vary by plan and service type\nðŸ“ž Please call to verify your specific plan coverage\n\n" ++
    simpleDisclaimer
  else if containsStr queryLower "appointment" || containsStr queryLower "visit" ||
      containsStr queryLower "documents" then
    "Here\x27s what you need to know:\n\n" ++ context ++
    "\n\nðŸ“‹ Required documents: Photo ID, insurance card, medication list\nâ° Arrive 15-30 minutes early for check-in\nðŸ“ž Call ahead to confirm appointment and requirements\n\n" ++
    simpleDisclaimer
  else
    "Based on our hospital information:\n\n" ++ context ++
    "\n\nFor specific medical questions or to schedule appointments, please contact SuperHealth Medical Center directly at (555) 123-HEALTH.\n\n" ++
    simpleDisclaimer

/-- Configuration of the optional generative collaborator (`llm_type`,
`use_advanced_llm`); an `llm` returning `none` models the collaborator
throwing, which `generate_advanced_response` catches. -/
structure RAGConfig where
  useAdvancedLLM : Bool
  llm : Option (String → String → Option String)

/-- `generate_advanced_response`: delegate to the collaborator, degrade
to the rule-based composer on unavailability or failure. -/
def generateAdvancedResponse (cfg : RAGConfig) (query context : String) : String :=
  if cfg.useAdvancedLLM then
    match cfg.llm with
    | some llm =>
      match llm query context with
      | some answer => answer
      | none => generateSimpleResponse query context
    | none => generateSimpleResponse query context
  else generateSimpleResponse query context

/-- `generate_next_steps`. -/
def generateNextSteps (triageInfo : Option TriageInfo) : List String :=
  let steps : List String :=
    match triageInfo with
    | none => []
    | some ti =>
      let urgency := pyUpper (ti.urgency_level.getD "")
      let department := ti.department.getD ""
      if urgency = "EMERGENCY" then
        ["ðŸš¨ Seek immediate emergency care or call 911",
         "Go to the nearest emergency room",
         "Bring valid ID and insurance card",
         "Don\x27t drive yourself if experiencing severe symptoms"]
      else if urgency = "URGENT" then
        ["ðŸ“ž Schedule same-day appointment with " ++ department,
         "Consider urgent care if department unavailable",
         "Prepare symptom timeline and current medications",
         "Arrive 15-30 minutes early for check-in"]
      else if urgency = "ROUTINE" then
        ["ðŸ“… Schedule appointment with " ++ department,
         "Gather medical history and current medications",
         "Prepare list of questions for provider",
         "Verify insurance coverage and copay"]
      else []
  if steps = [] then
    ["ðŸ“ž Contact hospital for specific guidance",
     "Prepare required documents (ID, insurance card)",
     "Review hospital policies and procedures",
     "Plan arrival time based on appointment type"]
  else steps

/-- `calculate_confidence`. -/
def calculateConfidence (contextDocs : List ContextDoc) (query : String) : ℚ :=
  if contextDocs = [] then 1/10
  else
    let distances := contextDocs.map (fun doc => doc.distance)
    let avgDistance := distances.sum / (distances.length : ℚ)
    let baseConfidence := max (1/10) (1 - avgDistance)
    -- the for-loop boosts once and breaks on the first exact match
    let boosted :=
      if contextDocs.any (fun doc => containsStr (pyLower doc.content) (pyLower query)) then
        min 1 (baseConfidence + 1/5)
      else baseConfidence
    pyRound2 boosted

/-- Answer text of the empty-retrieval fallback response. -/
def noInfoAnswer : String :=
  "I don\x27t have specific information about that topic in our knowledge base. Please contact SuperHealth Medical Center directly at (555) 123-HEALTH for assistance."

/-- The single next step of the empty-retrieval fallback response. -/
def contactHospitalStep : String :=
  "ðŸ“ž Contact hospital directly for assistance"

/-- `process_query`. -/
def processQuery (cfg : RAGConfig) (retrieve : String → List ContextDoc)
    (query : String) : RAGResponse :=
  let contextDocs := retrieve query
  if contextDocs = [] then
    { answer := noInfoAnswer
      sources := []
      confidence := 1/10
      next_steps := some [contactHospitalStep] }
  else
    let context := formatContext contextDocs
    let triageInfo := extractTriageInfo contextDocs
    let answer :=
      if cfg.useAdvancedLLM then generateAdvancedResponse cfg query context
      else generateSimpleResponse query context
    let nextSteps := generateNextSteps triageInfo
    let confidence := calculateConfidence contextDocs query
    let sources := contextDocs.map (fun doc =>
      { stype := doc.metadata.mtype.getD "unknown"
        content_preview :=
          if doc.content.length > 200 then doc.content.take 200 ++ "..." else doc.content
        relevance_score := pyRound2 (1 - doc.distance) : SourceDescriptor })
    { answer := answer
      sources := sources
      confidence := confidence
      triage_info := triageInfo
      next_steps := some nextSteps }

/-! ## Vector database (`src/vector_db.py`, `src/data_processor.py`)

CPython's per-process string hash is abstracted as a function parameter
`wordHash` (fixed for the lifetime of a store instance); the optional
learned sentence-transformer encoder is abstracted as an optional
function.  Float vectors are modelled exactly: the pre-normalization
vector is rational, and the L2 normalization divides by a real square
root. -/

/-- `Document` dataclass of `data_processor.py`.  Metadata values are
flattened scalars; we model the mapping as an association list. -/
structure Document where
  content : String
  metadata : List (String × String)
  source : String
deriving Repr, DecidableEq

/-- One record of the ChromaDB collection: the `(id, content, metadata,
embedding)` tuple passed to `collection.add`. -/
structure StoredRecord where
  id : String
  content : String
  metadata : List (String × String)
  embedding : List ℝ

/-- The state of a `HealthcareVectorDB` instance (plus its persisted
collection). -/
structure DBState where
  records : List StoredRecord
  useCustomEmbeddings : Bool
  wordHash : String → Int
  learnedEncode : Option (List String → List (List ℝ))

/-- One iteration of the `simple_embedding` accumulation loop: the
hash-positioned `1/(i+1)` increment followed by the three keyword-set
bonuses. -/
def preEmbedStep (wordHash : String → Int) (emb : List ℚ) (iw : Nat × String) : List ℚ :=
  let i := iw.1
  let word := iw.2
  let wordHashVal := (wordHash word) % 1000
  let pos := ((wordHashVal * 13) % 384).toNat
  let emb := emb.set pos (emb.getD pos 0 + 1 / ((i : ℚ) + 1))
  let emb := if word ∈ ["pain", "chest", "heart", "emergency"] then
      emb.set 0 (emb.getD 0 0 + 2) else emb
  let emb := if word ∈ ["insurance", "copay", "coverage"] then
      emb.set 1 (emb.getD 1 0 + 2) else emb
  if word ∈ ["appointment", "schedule", "time"] then
      emb.set 2 (emb.getD 2 0 + 2) else emb

/-- The `simple_embedding` accumulation loop over the first 20 tokens,
producing the vector before L2 normalization. -/
def preEmbed (wordHash : String → Int) (tokens : List String) : List ℚ :=
  tokens.enum.foldl (preEmbedStep wordHash) (List.replicate 384 (0 : ℚ))

/-- The pre-normalization vector of `simple_embedding text`. -/
def preEmbedding (wordHash : String → Int) (text : String) : List ℚ :=
  preEmbed wordHash ((pySplit (pyLower text)).take 20)

/-- L2 norm of a real vector (`sum(x*x for x in v) ** 0.5`). -/
noncomputable def l2norm (v : List ℝ) : ℝ :=
  Real.sqrt ((v.map (fun x => x * x)).sum)

/-- `simple_embedding`: hash-based fallback embedding.  The Python test
`norm > 0` on the float norm is equivalent to positivity of the rational
sum of squares, which is how the branch is expressed here. -/
noncomputable def simpleEmbedding (wordHash : String → Int) (text : String) : List ℝ :=
  let pre := preEmbedding wordHash text
  let sumSq : ℚ := (pre.map (fun x => x * x)).sum
  let norm : ℝ := Real.sqrt (sumSq : ℝ)
  if 0 < sumSq then pre.map (fun (x : ℚ) => (x : ℝ) / norm)
  else pre.map (fun (x : ℚ) => (x : ℝ))

/-- `create_embeddings`: one embedding per text; the learned strategy is
used when configured and loadable, else the deterministic fallback.  The
method reads but never writes the instance state, which state-passing
makes explicit. -/
noncomputable def createEmbeddings (db : DBState) (texts : List String) :
    List (List ℝ) × DBState :=
  if db.useCustomEmbeddings then
    (texts.map (simpleEmbedding db.wordHash), db)
  else
    match db.learnedEncode with
    | some encode => (encode texts, db)
    | none => (texts.map (simpleEmbedding db.wordHash), db)

/-- The `ids` list built by `add_documents`: for the document at overall
position `i` of the list, `f"{doc.source}_{i}"`. -/
def buildIds : Nat → List Document → List String
  | _, [] => []
  | i, doc :: docs => (doc.source ++ "_" ++ decRepr i) :: buildIds (i + 1) docs

/-- Pair the parallel `ids`/`documents`/`metadatas`/`embeddings` lists
into stored records (`collection.add` keyword lists are positional). -/
def zipRecords : List String → List String → List (List (String × String)) →
    List (List ℝ) → List StoredRecord
  | i :: is, t :: ts, m :: ms, e :: es =>
    { id := i, content := t, metadata := m, embedding := e } :: zipRecords is ts ms es
  | _, _, _, _ => []

/-- `add_documents`. -/
noncomputable def addDocuments (db : DBState) (documents : List Document) : DBState :=
  if documents = [] then db
  else
    let ids := buildIds 0 documents
    let documentsText := documents.map (fun doc => doc.content)
    let metadatas := documents.map (fun doc => doc.metadata)
    let embedded := createEmbeddings db documentsText
    { embedded.2 with
      records := embedded.2.records ++ zipRecords ids documentsText metadatas embedded.1 }

/-- `get_collection_stats().total_documents`. -/
def totalDocuments (db : DBState) : Nat := db.records.length

/-- `setup_vector_database`: the persisted collection the constructor
reopens is `db`; the corpus that `HealthcareDataProcessor.process_all_data`
would produce is the `corpus` parameter. -/
noncomputable def setupVectorDatabase (corpus : List Document) (reset : Bool)
    (db : DBState) : DBState :=
  let db := if reset then { db with records := [] } else db
  if totalDocuments db > 0 then db
  else if corpus = [] then db
  else addDocuments db corpus

/-! ## Patient intake & triage engine (`src/patient_intake.py`)

`self.rag_pipeline.process_query` is abstracted as a parameter
`pipeline : String → RAGResponse`; the triage functions additionally
return the list of queries submitted to it, making "retrieval was / was
not consulted" an observable of the model.  The `session_id` /
`timestamp` bookkeeping fields (wall-clock strings never read by the
engine) are not modelled. -/

/-- `PatientInfo` dataclass. -/
structure PatientInfo where
  age : Option Int := none
  gender : Option String := none
  chief_complaint : Option String := none
  symptoms : List String := []
  symptom_duration : Option String := none
  symptom_severity : Option Int := none
  pain_location : Option String := none
  medical_history : List String := []
  current_medications : List String := []
  allergies : List String := []
  insurance_provider : Option String := none
  insurance_member_id : Option String := none
  phone_number : Option String := none
  email : Option String := none
  preferred_time : Option String := none
  urgency_perception : Option String := none
deriving Repr, DecidableEq

/-- The dict shapes `TriageRecommendation.insurance_coverage` can take:
`{}` when no provider was given, the fixed emergency dict on the
emergency path, or the `get_insurance_info` result. -/
structure InsuranceInfo where
  provider : String
  accepted : Bool
  emergency_copay : String
  urgent_care_copay : String
  specialist_copay : String
  primary_care_copay : String
  notes : String
deriving Repr, DecidableEq

inductive InsuranceCoverage where
  | empty
  | emergencyDefault
  | info (i : InsuranceInfo)
deriving Repr, DecidableEq

/-- `TriageRecommendation` dataclass. -/
structure TriageRecommendation where
  urgency_level : String
  recommended_department : String
  estimated_wait_time : String
  priority_score : Int
  next_steps : List String
  required_documents : List String
  preparation_instructions : List String
  recommended_time_slots : List String
  alternative_options : List String
  insurance_coverage : InsuranceCoverage
  estimated_cost : String
  warning_signs : List String
  medical_disclaimer : String
deriving Repr, DecidableEq

/-- `VisitPlan` dataclass. -/
structure VisitPlan where
  patient_info : PatientInfo
  triage_recommendation : TriageRecommendation
  check_in_time : String
  estimated_total_time : String
  parking_info : String
  directions : String
  follow_up_needed : Bool
  specialist_referral : Option String
  visit_summary : String
  confidence_score : ℚ
deriving Repr, DecidableEq

/-- The two `ValueError` failure modes of the engine, under the names
the specification's error taxonomy gives them. -/
inductive IntakeError where
  | sessionNotStarted
  | noPatientData
deriving Repr, DecidableEq

/-- The exact `ValueError` message the source raises for each failure. -/
def IntakeError.message : IntakeError → String
  | .sessionNotStarted => "Must start intake session first"
  | .noPatientData => "No patient information available"

/-- The mutable `self.current_patient` handle of `PatientIntakeSystem`. -/
structure IntakeState where
  currentPatient : Option PatientInfo
deriving Repr, DecidableEq

/-- `start_new_intake`. -/
def startNewIntake (_st : IntakeState) : IntakeState :=
  { currentPatient := some {} }

/-- `collect_basic_info`: the one collector that auto-starts a session. -/
def collectBasicInfo (st : IntakeState) (age : Int) (gender : String) : IntakeState :=
  let st := if st.currentPatient = none then startNewIntake st else st
  match st.currentPatient with
  | some p =>
    let p2 := { p with age := some age, gender := some (pyLower gender) }
    { st with currentPatient := some p2 }
  | none => st

/-- `self.severity_mappings`. -/
def severityMappings : List (String × Int) :=
  [("mild", 1), ("moderate", 5), ("severe", 9), ("unbearable", 10)]

/-- The severity-normalization logic of `collect_symptoms`. -/
def normalizeSeverity (severity : String) : Int :=
  match severityMappings.lookup (pyLower severity) with
  | some v => v
  | none =>
    match pyParseInt severity with
    | some n => n
    | none => 5

/-- `collect_symptoms`. -/
def collectSymptoms (st : IntakeState) (chiefComplaint : String) (symptoms : List String)
    (duration : String) (severity : String) (location : Option String) :
    Except IntakeError IntakeState :=
  match st.currentPatient with
  | none => .error .sessionNotStarted
  | some p =>
    let p2 := { p with chief_complaint := some chiefComplaint,
                       symptoms := symptoms,
                       symptom_duration := some duration,
                       pain_location := location,
                       symptom_severity := some (normalizeSeverity severity) }
    .ok { st with currentPatient := some p2 }

/-- `collect_medical_history`. -/
def collectMedicalHistory (st : IntakeState) (medicalHistory medications allergies :
    List String) : Except IntakeError IntakeState :=
  match st.currentPatient with
  | none => .error .sessionNotStarted
  | some p =>
    let p2 := { p with medical_history := medicalHistory,
                       current_medications := medications,
                       allergies := allergies }
    .ok { st with currentPatient := some p2 }

/-- `collect_insurance_info`. -/
def collectInsuranceInfo (st : IntakeState) (provider : String)
    (memberId : Option String) : Except IntakeError IntakeState :=
  match st.currentPatient with
  | none => .error .sessionNotStarted
  | some p =>
    let p2 := { p with insurance_provider := some provider,
                       insurance_member_id := memberId }
    .ok { st with currentPatient := some p2 }

/-- `collect_contact_info`. -/
def collectContactInfo (st : IntakeState) (phone : String) (email : Option String) :
    Except IntakeError IntakeState :=
  match st.currentPatient with
  | none => .error .sessionNotStarted
  | some p =>
    let p2 := { p with phone_number := some phone, email := email }
    .ok { st with currentPatient := some p2 }

/-- `collect_preferences`. -/
def collectPreferences (st : IntakeState) (preferredTime urgencyPerception : String) :
    Except IntakeError IntakeState :=
  match st.currentPatient with
  | none => .error .sessionNotStarted
  | some p =>
    let p2 := { p with preferred_time := some preferredTime,
                       urgency_perception := some urgencyPerception }
    .ok { st with currentPatient := some p2 }

/-- `self.emergency_keywords`. -/
def emergencyKeywords : List String :=
  ["chest pain", "difficulty breathing", "unconscious", "bleeding heavily",
   "severe injury", "overdose", "suicide", "heart attack", "stroke",
   "allergic reaction", "severe burn", "broken bone", "head injury"]

/-- The lowercase concatenation of chief complaint and symptoms used by
`check_emergency_indicators` (and `_get_warning_signs`). -/
def symptomsText (p : PatientInfo) : String :=
  pyLower (String.intercalate " " ((p.chief_complaint.getD "") :: p.symptoms))

/-- The keyword pass of `check_emergency_indicators`: one flag per
emergency keyword found in the symptoms text, in list order. -/
def keywordFlags (p : PatientInfo) : List String :=
  (emergencyKeywords.filter (fun kw => containsStr (symptomsText p) kw)).map
    (fun kw => "Emergency keyword detected: " ++ kw)

/-- The severity check of `check_emergency_indicators`.  The Python
truthiness guard `if ... severity and ... >= 8` becomes an explicit
`≠ 0` test on a present value. -/
def severityFlags (p : PatientInfo) : List String :=
  match p.symptom_severity with
  | none => []
  | some s => if s ≠ 0 ∧ 8 ≤ s then
      ["High severity score: " ++ toString s ++ "/10"] else []

/-- The age-conditional checks of `check_emergency_indicators`.  The
Python truthiness guard `if ... age:` becomes an explicit `≠ 0` test on
a present value. -/
def ageFlags (p : PatientInfo) : List String :=
  match p.age with
  | none => []
  | some a =>
    if a ≠ 0 then
      (if 65 ≤ a ∧ containsStr (symptomsText p) "chest pain" then
        ["Chest pain in elderly patient"] else []) ++
      (if a < 5 ∧ containsStr (symptomsText p) "fever" then
        ["Fever in young child"] else [])
    else []

/-- `check_emergency_indicators`: the flag list accumulated in source
order (keywords, then severity, then age rules), paired with
`len(emergency_flags) > 0`. -/
def checkEmergencyIndicators (p : PatientInfo) : Bool × List String :=
  let flags := keywordFlags p ++ severityFlags p ++ ageFlags p
  (!flags.isEmpty, flags)

/-- `_build_triage_query`. -/
def buildTriageQuery (p : PatientInfo) : String :=
  let complaintPart :=
    match p.chief_complaint with
    | some c => if c ≠ "" then [c] else []
    | none => []
  let agePart :=
    match p.age with
    | some a => if a ≠ 0 then ["age " ++ toString a] else []
    | none => []
  let severityPart :=
    match p.symptom_severity with
    | some s =>
      if s ≠ 0 then
        if 7 ≤ s then ["severe symptoms"]
        else if 4 ≤ s then ["moderate symptoms"]
        else []
      else []
    | none => []
  String.intercalate " " (complaintPart ++ p.symptoms ++ agePart ++ severityPart)

/-- `_generate_preparation_instructions`. -/
def generatePreparationInstructions (p : PatientInfo) : List String :=
  ["Arrive 15-30 minutes before your appointment",
   "Bring a list of current medications",
   "Prepare questions for your healthcare provider"] ++
  (if p.allergies ≠ [] then ["Be prepared to discuss your allergies"] else []) ++
  (if p.medical_history ≠ [] then ["Bring relevant medical history documents"] else [])

/-- `_get_recommended_time_slots` (`self.time_slots` dict get with the
routine slots as default). -/
def getRecommendedTimeSlots (urgencyLevel : String) : List String :=
  let key := pyLower urgencyLevel
  if key = "emergency" then ["immediately", "ASAP"]
  else if key = "urgent" then ["within 2 hours", "today if possible", "this evening"]
  else ["within 1-2 weeks", "next available appointment", "at your convenience"]

/-- `_get_alternative_options`. -/
def getAlternativeOptions (urgencyLevel : String) : List String :=
  if urgencyLevel = "EMERGENCY" then
    ["Emergency Department", "Call 911", "Urgent Care (if symptoms improve)"]
  else if urgencyLevel = "URGENT" then
    ["Urgent Care", "Same-day appointment", "Telehealth consultation"]
  else
    ["Regular appointment", "Telehealth consultation", "Walk-in clinic"]

/-- `_get_warning_signs`. -/
def getWarningSigns (p : PatientInfo) : List String :=
  let text := symptomsText p
  ["Worsening symptoms", "New severe symptoms", "Difficulty breathing",
   "Severe pain (8/10 or higher)"] ++
  (if containsStr text "chest" then
    ["Pain radiating to arm or jaw", "Sweating with chest pain", "Nausea with chest pain"]
   else []) ++
  (if containsStr text "headache" then
    ["Sudden severe headache", "Headache with stiff neck", "Headache with vision changes"]
   else [])

/-- `get_insurance_info`, returning the built info together with the one
query it submits to the pipeline. -/
def getInsuranceInfo (pipeline : String → RAGResponse) (provider : String) :
    InsuranceInfo × List String :=
  let query := "insurance coverage copay " ++ provider
  let response := pipeline query
  let base : InsuranceInfo :=
    { provider := provider
      accepted := true
      emergency_copay := "Contact insurance for details"
      urgent_care_copay := "Contact insurance for details"
      specialist_copay := "Contact insurance for details"
      primary_care_copay := "Contact insurance for details"
      notes := response.answer }
  let info := response.sources.foldl (fun acc src =>
    if src.stype = "insurance" &&
        containsStr (pyLower src.content_preview) (pyLower provider) then
      let content := src.content_preview
      if containsStr content "Emergency Copay:" then
        { acc with emergency_copay :=
            pyStrip (((pySplitOn ((pySplitOn content "Emergency Copay:").getD 1 "") "\n")).headD "") }
      else acc
    else acc) base
  (info, [query])

/-- `_generate_emergency_recommendation`. -/
def generateEmergencyRecommendation (emergencyFlags : List String) : TriageRecommendation :=
  { urgency_level := "EMERGENCY"
    recommended_department := "Emergency Department"
    estimated_wait_time := "0-5 minutes"
    priority_score := 1
    next_steps :=
      ["ðŸš¨ Seek immediate emergency care",
       "Call 911 if symptoms are severe",
       "Go to nearest emergency room",
       "Do not drive yourself if experiencing severe symptoms"]
    required_documents := ["Photo ID", "Insurance card"]
    preparation_instructions :=
      ["Bring all current medications",
       "Prepare to describe symptoms to medical staff",
       "Have emergency contact information ready"]
    recommended_time_slots := ["immediately", "ASAP"]
    alternative_options := ["Call 911", "Go to nearest emergency room"]
    insurance_coverage := .emergencyDefault
    estimated_cost := "Emergency copay applies"
    warning_signs := emergencyFlags
    medical_disclaimer := "This is an emergency situation. Seek immediate medical attention." }

/-- `generate_triage_recommendation` on a present patient, returning the
recommendation together with the queries submitted to
`self.rag_pipeline.process_query` (in order).  On the hint map the
source reads `.get(key, default)`; the key is always present there, so
the default applies exactly when `triage_info` is absent (the
`'estimated_wait'` key is never present, so its default always applies). -/
def generateTriageRecommendation (pipeline : String → RAGResponse) (p : PatientInfo) :
    TriageRecommendation × List String :=
  let checked := checkEmergencyIndicators p
  if checked.1 then (generateEmergencyRecommendation checked.2, [])
  else
    let query := buildTriageQuery p
    let response := pipeline query
    let urgencyLevel :=
      match response.triage_info with
      | some ti => ti.urgency_level.getD "ROUTINE"
      | none => "ROUTINE"
    let insuranceLookup : InsuranceCoverage × List String :=
      match p.insurance_provider with
      | some provider =>
        let r := getInsuranceInfo pipeline provider
        (.info r.1, r.2)
      | none => (.empty, [])
    ({ urgency_level := urgencyLevel
       recommended_department :=
         match response.triage_info with
         | some ti => ti.department.getD "Internal Medicine"
         | none => "Internal Medicine"
       estimated_wait_time := "15-30 minutes"
       priority_score :=
         match response.triage_info with
         | some ti => ti.priority.getD 3
         | none => 3
       next_steps := (response.next_steps.getD []) -- `response.next_steps or []`
       required_documents := ["Photo ID", "Insurance card", "Medication list"]
       preparation_instructions := generatePreparationInstructions p
       recommended_time_slots := getRecommendedTimeSlots urgencyLevel
       alternative_options := getAlternativeOptions urgencyLevel
       insurance_coverage := insuranceLookup.1
       estimated_cost :=
         match insuranceLookup.1 with
         | .info i => i.primary_care_copay -- dict get finds the key
         | _ => "Contact insurance for estimate"
       warning_signs := getWarningSigns p
       medical_disclaimer := "This is not medical advice. Please consult a qualified healthcare provider for proper medical evaluation and treatment." },
     [query] ++ insuranceLookup.2)

/-- The `generate_triage_recommendation` method including its
no-patient guard. -/
def generateTriageRecommendationSys (pipeline : String → RAGResponse)
    (st : IntakeState) : Except IntakeError (TriageRecommendation × List String) :=
  match st.currentPatient with
  | none => .error .noPatientData
  | some p => .ok (generateTriageRecommendation pipeline p)

/-- `_generate_visit_summary`. -/
def generateVisitSummary (p : PatientInfo) (rec : TriageRecommendation) : String :=
  String.intercalate " | "
    (["Patient: " ++ pyShowOptInt p.age ++ "-year-old " ++ pyShowOptStr p.gender,
      "Chief complaint: " ++ pyShowOptStr p.chief_complaint,
      "Recommended: " ++ rec.recommended_department,
      "Urgency: " ++ rec.urgency_level,
      "Estimated wait: " ++ rec.estimated_wait_time] ++
     (match p.insurance_provider with
      | some provider => ["Insurance: " ++ provider]
      | none => []))

/-- `generate_visit_plan`; `nowPlus2h` stands for the wall-clock string
`(now + 2h).strftime("%I:%M %p today")`. -/
def generateVisitPlan (pipeline : String → RAGResponse) (nowPlus2h : String)
    (st : IntakeState) : Except IntakeError VisitPlan :=
  match st.currentPatient with
  | none => .error .noPatientData
  | some p =>
    let triageRec := (generateTriageRecommendation pipeline p).1
    let timing :=
      if triageRec.urgency_level = "EMERGENCY" then ("Immediately", "2-4 hours")
      else if triageRec.urgency_level = "URGENT" then (nowPlus2h, "1-2 hours")
      else ("Next available appointment", "1 hour")
    .ok { patient_info := p
          triage_recommendation := triageRec
          check_in_time := timing.1
          estimated_total_time := timing.2
          parking_info := "Free parking available in main lot. Valet service for emergency patients."
          directions := "Enter through main entrance. Follow signs to appropriate department."
          follow_up_needed := triageRec.urgency_level ∈ ["URGENT", "ROUTINE"]
          specialist_referral := none
          visit_summary := generateVisitSummary p triageRec
          confidence_score := 85/100 }

/-! ## Verification views of the id scheme -/

/-- Numeric value of a decimal digit character. -/
def charVal (c : Char) : Nat := c.toNat - '0'.toNat

/-- The decimal number after the last underscore of an id string (a
verification view used to separate `"{source}_{index}"` back into its
parts). -/
def extractIndex (s : String) : Nat :=
  digitsVal ((s.data.reverse.takeWhile (fun c => c.isDigit)).reverse.map charVal)

/-- The id scheme described by the specification sentence: each
document's id is its source joined with that document's sequential index
*within its own source*.  Stated from the spec's words for comparison
with the source's `buildIds`. -/
def withinSourceIds (docs : List Document) : List String :=
  docs.enum.map (fun p =>
    p.2.source ++ "_" ++
      decRepr (((docs.take p.1).filter (fun d => d.source = p.2.source)).length))

/-! ## Shared helper lemmas -/

theorem checkEmergencyIndicators_snd (p : PatientInfo) :
    (checkEmergencyIndicators p).2 = keywordFlags p ++ severityFlags p ++ ageFlags p := rfl

theorem checkEmergencyIndicators_fst (p : PatientInfo) :
    (checkEmergencyIndicators p).1 =
      !(keywordFlags p ++ severityFlags p ++ ageFlags p).isEmpty := rfl

/-! ## C2: session-state contract -/

/-- **C2**: with no intake session started, `collect_symptoms`,
`collect_medical_history`, `collect_insurance_info`,
`collect_contact_info` and `collect_preferences` all fail with the
session-not-started error (`ValueError("Must start intake session
first")`); `generate_visit_plan` and `generate_triage_recommendation`
fail with the no-patient-data error (`ValueError("No patient information
available")`); and `collect_basic_info` alone silently auto-starts a
session and records the demographics. -/
theorem c2_session_state_contract (st : IntakeState) (h : st.currentPatient = none)
    (pipeline : String → RAGResponse) (nowPlus2h cc : String) (sy : List String)
    (du sev : String) (loc : Option String) (mh meds alg : List String)
    (prov : String) (mid : Option String) (phone : String) (email : Option String)
    (pt up : String) (age : Int) (g : String) :
    collectSymptoms st cc sy du sev loc = .error .sessionNotStarted ∧
    collectMedicalHistory st mh meds alg = .error .sessionNotStarted ∧
    collectInsuranceInfo st prov mid = .error .sessionNotStarted ∧
    collectContactInfo st phone email = .error .sessionNotStarted ∧
    collectPreferences st pt up = .error .sessionNotStarted ∧
    generateVisitPlan pipeline nowPlus2h st = .error .noPatientData ∧
    generateTriageRecommendationSys pipeline st = .error .noPatientData ∧
    (collectBasicInfo st age g).currentPatient =
      some { age := some age, gender := some (pyLower g) } := by
  refine ⟨?_, ?_, ?_, ?_, ?_, ?_, ?_, ?_⟩ <;>
    simp [collectSymptoms, collectMedicalHistory, collectInsuranceInfo,
      collectContactInfo, collectPreferences, generateVisitPlan,
      generateTriageRecommendationSys, collectBasicInfo, startNewIntake, h]

/-- Witness for C2 at a concrete un-started state. -/
theorem c2_session_state_contract_witness :
    collectSymptoms { currentPatient := none } "headache" ["headache"] "2 days" "mild" none
      = .error .sessionNotStarted ∧
    generateVisitPlan (fun _ => { answer := "", sources := [], confidence := 0 })
      "10:00 AM today" { currentPatient := none } = .error .noPatientData ∧
    (collectBasicInfo { currentPatient := none } 40 "Male").currentPatient =
      some { age := some 40, gender := some (pyLower "Male") } := by
  have r := c2_session_state_contract { currentPatient := none } rfl
    (fun _ => { answer := "", sources := [], confidence := 0 }) "10:00 AM today"
    "headache" ["headache"] "2 days" "mild" none [] [] [] "Aetna" none
    "555-0100" none "morning" "low" 40 "Male"
  exact ⟨r.1, r.2.2.2.2.2.1, r.2.2.2.2.2.2.2⟩

/-! ## C4: empty-retrieval fallback of `process_query` -/

/-- **C4**: when retrieval yields no documents, `process_query` returns
(rather than raises) the fixed fallback response: empty sources,
confidence exactly 0.1, the no-information answer directing the user to
contact the institution, and exactly one next step directing the user to
contact the institution. -/
theorem c4_empty_retrieval_fallback (cfg : RAGConfig)
    (retrieve : String → List ContextDoc) (query : String)
    (h : retrieve query = []) :
    processQuery cfg retrieve query =
      { answer := noInfoAnswer
        sources := []
        confidence := 1/10
        triage_info := none
        next_steps := some [contactHospitalStep] } ∧
    [contactHospitalStep].length = 1 := by
  refine ⟨?_, rfl⟩
  simp [processQuery, h]

/-- Witness for C4 on a retrieval function that finds nothing. -/
theorem c4_empty_retrieval_fallback_witness :
    processQuery { useAdvancedLLM := false, llm := none } (fun _ => [])
        "parking validation" =
      { answer := noInfoAnswer
        sources := []
        confidence := 1/10
        triage_info := none
        next_steps := some [contactHospitalStep] } :=
  (c4_empty_retrieval_fallback { useAdvancedLLM := false, llm := none }
    (fun _ => []) "parking validation" rfl).1

/-! ## C5: severity normalization in `collect_symptoms` -/

/-- **C5**: `collect_symptoms` stores `normalizeSeverity severity` as the
1–10 integer severity, and that normalization maps the qualitative labels
mild/moderate/severe/unbearable (case-insensitively) to 1/5/9/10, parses
any other string as an integer, and falls back to 5 when the string is
neither a known label nor a parsable integer. -/
theorem c5_severity_normalization (st : IntakeState) (p : PatientInfo)
    (h : st.currentPatient = some p) (cc : String) (sy : List String)
    (du sev : String) (loc : Option String) :
    (∃ p2 : PatientInfo,
        collectSymptoms st cc sy du sev loc = .ok { st with currentPatient := some p2 } ∧
        p2.symptom_severity = some (normalizeSeverity sev)) ∧
    (pyLower sev = "mild" → normalizeSeverity sev = 1) ∧
    (pyLower sev = "moderate" → normalizeSeverity sev = 5) ∧
    (pyLower sev = "severe" → normalizeSeverity sev = 9) ∧
    (pyLower sev = "unbearable" → normalizeSeverity sev = 10) ∧
    (severityMappings.lookup (pyLower sev) = none →
      (∀ n, pyParseInt sev = some n → normalizeSeverity sev = n) ∧
      (pyParseInt sev = none → normalizeSeverity sev = 5)) := by
  refine ⟨⟨{ p with chief_complaint := some cc,
                    symptoms := sy,
                    symptom_duration := some du,
                    pain_location := loc,
                    symptom_severity := some (normalizeSeverity sev) },
           by simp [collectSymptoms, h], rfl⟩, ?_, ?_, ?_, ?_, ?_⟩
  · intro hl; unfold normalizeSeverity; rw [hl]; rfl
  · intro hl; unfold normalizeSeverity; rw [hl]; rfl
  · intro hl; unfold normalizeSeverity; rw [hl]; rfl
  · intro hl; unfold normalizeSeverity; rw [hl]; rfl
  · intro hn
    constructor
    · intro n hpn; unfold normalizeSeverity; rw [hn, hpn]
    · intro hpn; unfold normalizeSeverity; rw [hn, hpn]

/-- Witness for C5 on a started session with severity `"Unbearable"`. -/
theorem c5_severity_normalization_witness :
    (∃ p2 : PatientInfo,
        collectSymptoms { currentPatient := some {} } "pain" ["back pain"] "1 day"
            "Unbearable" none =
          .ok { currentPatient := some p2 } ∧
        p2.symptom_severity = some (normalizeSeverity "Unbearable")) ∧
    normalizeSeverity "Unbearable" = 10 := by
  have r := c5_severity_normalization { currentPatient := some {} } {} rfl
    "pain" ["back pain"] "1 day" "Unbearable" none
  exact ⟨r.1, r.2.2.2.2.1 (by decide)⟩

/-! ## C7: idempotent corpus-ingest guard -/

/-- **C7**: running the top-level setup routine against a store that
already holds at least one document returns the store unchanged — the
population check short-circuits before any corpus processing or
`add_documents` call, for every corpus — so the document count is
unchanged and no records are duplicated. -/
theorem c7_setup_populated_store_unchanged (corpus : List Document) (db : DBState)
    (h : 0 < totalDocuments db) :
    setupVectorDatabase corpus false db = db ∧
    totalDocuments (setupVectorDatabase corpus false db) = totalDocuments db := by
  have heq : setupVectorDatabase corpus false db = db := by
    simp [setupVectorDatabase, h]
  exact ⟨heq, by rw [heq]⟩

/-- Witness for C7 on a store holding one record. -/
theorem c7_setup_populated_store_unchanged_witness :
    setupVectorDatabase
        [{ content := "fresh", metadata := [], source := "hospital_faqs" }] false
        { records := [{ id := "hospital_faqs_0", content := "c", metadata := [],
                        embedding := [] }]
          useCustomEmbeddings := true
          wordHash := fun _ => 0
          learnedEncode := none } =
      { records := [{ id := "hospital_faqs_0", content := "c", metadata := [],
                      embedding := [] }]
        useCustomEmbeddings := true
        wordHash := fun _ => 0
        learnedEncode := none } :=
  (c7_setup_populated_store_unchanged _ _ (by decide)).1

/-! ## C3: confidence formula and bounds -/

theorem pyRound2_bounds (x : ℚ) (h1 : 1/10 ≤ x) (h2 : x ≤ 1) :
    1/10 ≤ pyRound2 x ∧ pyRound2 x ≤ 1 := by
  have hy1 : (10 : ℚ) ≤ x * 100 := by linarith
  have hy2 : x * 100 ≤ 100 := by linarith
  have hf1 : (10 : ℤ) ≤ ⌊x * 100⌋ := Int.le_floor.mpr (by exact_mod_cast hy1)
  have hf2 : ⌊x * 100⌋ ≤ 100 := by
    have hle : (⌊x * 100⌋ : ℚ) ≤ 100 := le_trans (Int.floor_le (x * 100)) hy2
    exact_mod_cast hle
  have key : ∀ n : ℤ, 10 ≤ n → n ≤ 100 → 1/10 ≤ (n : ℚ)/100 ∧ (n : ℚ)/100 ≤ 1 := by
    intro n hn1 hn2
    constructor
    · rw [le_div_iff₀ (by norm_num : (0:ℚ) < 100)]
      calc (1:ℚ)/10 * 100 = 10 := by norm_num
        _ ≤ (n:ℚ) := by exact_mod_cast hn1
    · rw [div_le_one (by norm_num : (0:ℚ) < 100)]
      exact_mod_cast hn2
  have h99 : ¬ (x * 100 - (⌊x * 100⌋ : ℚ) < 1/2) → ⌊x * 100⌋ ≤ 99 := by
    intro hr
    have hhalf : (1:ℚ)/2 ≤ x * 100 - (⌊x * 100⌋ : ℚ) := not_lt.mp hr
    have : (⌊x * 100⌋ : ℚ) < 100 := by linarith
    have : ⌊x * 100⌋ < 100 := by exact_mod_cast this
    omega
  simp only [pyRound2]
  split_ifs with hr1 hr2 hpar
  · exact key _ hf1 hf2
  · exact key _ (by omega) (by have := h99 hr1; omega)
  · exact key _ hf1 hf2
  · exact key _ (by omega) (by have := h99 hr1; omega)

theorem processQuery_confidence (cfg : RAGConfig) (retrieve : String → List ContextDoc)
    (query : String) :
    (processQuery cfg retrieve query).confidence =
      calculateConfidence (retrieve query) query := by
  by_cases h : retrieve query = []
  · simp [processQuery, calculateConfidence, h]
  · simp [processQuery, h]

/-- **C3**: for every query the returned confidence is
`round₂` of `max(0.1, 1 − avgDistance)`, boosted by `+0.2` capped at 1
exactly when the query appears case-insensitively in some retrieved
document's content; with nonnegative retrieval distances the confidence
always lies in `[0, 1]`; and an empty retrieval gives exactly 0.1. -/
theorem c3_confidence (cfg : RAGConfig) (retrieve : String → List ContextDoc)
    (query : String) :
    (retrieve query ≠ [] →
      (processQuery cfg retrieve query).confidence =
        pyRound2 (
          if ∃ doc ∈ retrieve query,
              containsStr (pyLower doc.content) (pyLower query) = true then
            min 1 (max (1/10)
              (1 - ((retrieve query).map (fun d => d.distance)).sum /
                ((((retrieve query).map (fun d => d.distance)).length : ℚ))) + 1/5)
          else
            max (1/10)
              (1 - ((retrieve query).map (fun d => d.distance)).sum /
                ((((retrieve query).map (fun d => d.distance)).length : ℚ))))) ∧
    ((∀ doc ∈ retrieve query, 0 ≤ doc.distance) →
      0 ≤ (processQuery cfg retrieve query).confidence ∧
      (processQuery cfg retrieve query).confidence ≤ 1) ∧
    (retrieve query = [] →
      (processQuery cfg retrieve query).confidence = 1/10) := by
  refine ⟨?_, ?_, ?_⟩
  · intro h
    rw [processQuery_confidence]
    simp only [calculateConfidence, if_neg h]
    exact congrArg pyRound2
      (if_congr (by simp [List.any_eq_true]) rfl rfl).symm |>.symm
  · intro hd
    rw [processQuery_confidence]
    by_cases h : retrieve query = []
    · rw [h]
      simp [calculateConfidence]
      norm_num
    · simp only [calculateConfidence, if_neg h]
      have hlen : 0 < ((retrieve query).map (fun d => d.distance)).length := by
        rw [List.length_map]
        exact List.length_pos.mpr h
    -- abbreviations
      have hsum : 0 ≤ ((retrieve query).map (fun d => d.distance)).sum := by
        refine List.sum_nonneg ?_
        intro a ha
        obtain ⟨d, hd2, rfl⟩ := List.mem_map.mp ha
        exact hd d hd2
      have havg : 0 ≤ ((retrieve query).map (fun d => d.distance)).sum /
          ((((retrieve query).map (fun d => d.distance)).length : ℚ)) :=
        div_nonneg hsum (by positivity)
      have hbase1 : 1/10 ≤ max ((1:ℚ)/10)
          (1 - ((retrieve query).map (fun d => d.distance)).sum /
            ((((retrieve query).map (fun d => d.distance)).length : ℚ))) :=
        le_max_left _ _
      have hbase2 : max ((1:ℚ)/10)
          (1 - ((retrieve query).map (fun d => d.distance)).sum /
            ((((retrieve query).map (fun d => d.distance)).length : ℚ))) ≤ 1 :=
        max_le (by norm_num) (by linarith)
      split_ifs with hb
      · have hmin1 : 1/10 ≤ min (1:ℚ) (max ((1:ℚ)/10)
            (1 - ((retrieve query).map (fun d => d.distance)).sum /
              ((((retrieve query).map (fun d => d.distance)).length : ℚ))) + 1/5) :=
          le_min (by norm_num) (by linarith)
        have hmin2 : min (1:ℚ) (max ((1:ℚ)/10)
            (1 - ((retrieve query).map (fun d => d.distance)).sum /
              ((((retrieve query).map (fun d => d.distance)).length : ℚ))) + 1/5) ≤ 1 :=
          min_le_left _ _
        have hres := pyRound2_bounds _ hmin1 hmin2
        exact ⟨by linarith [hres.1], hres.2⟩
      · have hres := pyRound2_bounds _ hbase1 hbase2
        exact ⟨by linarith [hres.1], hres.2⟩
  · intro h
    rw [processQuery_confidence]
    simp [calculateConfidence, h]

/-- Witness for C3: bounds on a one-document retrieval and the exact 0.1
on an empty retrieval. -/
theorem c3_confidence_witness :
    (0 ≤ (processQuery { useAdvancedLLM := false, llm := none }
        (fun _ => [{ content := "General visiting hours are open daily.",
                     metadata := { mtype := some "faq", urgency_level := none,
                                   department := none, priority := none,
                                   symptoms := none, warning_signs := none },
                     distance := 1/2 }]) "visiting hours").confidence ∧
      (processQuery { useAdvancedLLM := false, llm := none }
        (fun _ => [{ content := "General visiting hours are open daily.",
                     metadata := { mtype := some "faq", urgency_level := none,
                                   department := none, priority := none,
                                   symptoms := none, warning_signs := none },
                     distance := 1/2 }]) "visiting hours").confidence ≤ 1) ∧
    (processQuery { useAdvancedLLM := false, llm := none } (fun _ => [])
        "visiting hours").confidence = 1/10 := by
  constructor
  · refine (c3_confidence { useAdvancedLLM := false, llm := none } _ "visiting hours").2.1 ?_
    intro doc hdoc
    rw [List.mem_singleton] at hdoc
    subst hdoc
    norm_num
  · exact (c3_confidence { useAdvancedLLM := false, llm := none }
      (fun _ => []) "visiting hours").2.2 rfl

/-! ## C10 / C1: emergency-indicator rules -/

theorem mem_keywordFlags {p : PatientInfo} {x : String} (hx : x ∈ keywordFlags p) :
    ∃ kw ∈ emergencyKeywords, x = "Emergency keyword detected: " ++ kw := by
  unfold keywordFlags at hx
  obtain ⟨kw, hkw, rfl⟩ := List.mem_map.mp hx
  exact ⟨kw, (List.mem_filter.mp hkw).1, rfl⟩

theorem mem_severityFlags {p : PatientInfo} {x : String} (hx : x ∈ severityFlags p) :
    ∃ s : Int, p.symptom_severity = some s ∧
      x = "High severity score: " ++ toString s ++ "/10" := by
  unfold severityFlags at hx
  split at hx
  · cases hx
  · rename_i s heq
    refine ⟨s, heq, ?_⟩
    split at hx
    · simpa using hx
    · cases hx

/-- A severity flag can never spell the elderly-chest-pain flag: the two
strings differ in their first character. -/
theorem highSeverityFlag_ne_chestFlag (s : Int) :
    "High severity score: " ++ toString s ++ "/10" ≠ "Chest pain in elderly patient" := by
  intro hEq
  have hd := congrArg String.data hEq
  rw [String.data_append, String.data_append] at hd
  have h0 := congrArg List.head? hd
  rw [List.head?_append_of_ne_nil _ (by simp),
      List.head?_append_of_ne_nil _ (by decide)] at h0
  revert h0
  decide

/-- **C10**: a patient whose age is 0 or unset gets no age-conditional
emergency flags from `check_emergency_indicators` — the flag list reduces
to the keyword and severity passes, and in particular neither the
"Fever in young child" nor the "Chest pain in elderly patient" flag can
appear, even though `0 < 5`: the `if ... age:` guard is a truthiness
test, not a `None` test. -/
theorem c10_age_zero_skips_age_rules (p : PatientInfo)
    (h : p.age = some 0 ∨ p.age = none) :
    (checkEmergencyIndicators p).2 = keywordFlags p ++ severityFlags p ∧
    "Fever in young child" ∉ (checkEmergencyIndicators p).2 ∧
    "Chest pain in elderly patient" ∉ (checkEmergencyIndicators p).2 := by
  have hage : ageFlags p = [] := by
    rcases h with h | h <;> simp [ageFlags, h]
  have hsnd : (checkEmergencyIndicators p).2 = keywordFlags p ++ severityFlags p := by
    rw [checkEmergencyIndicators_snd, hage, List.append_nil]
  refine ⟨hsnd, ?_, ?_⟩ <;> rw [hsnd] <;> intro hmem <;>
    rcases List.mem_append.mp hmem with hkw | hsev
  · obtain ⟨kw, _, heq⟩ := mem_keywordFlags hkw
    have hlen := congrArg String.length heq
    rw [String.length_append] at hlen
    have h28 : ("Emergency keyword detected: ").length = 28 := by decide
    have h20 : ("Fever in young child").length = 20 := by decide
    omega
  · obtain ⟨s, _, heq⟩ := mem_severityFlags hsev
    have hlen := congrArg String.length heq
    rw [String.length_append, String.length_append] at hlen
    have h21 : ("High severity score: ").length = 21 := by decide
    have h3 : ("/10").length = 3 := by decide
    have h20 : ("Fever in young child").length = 20 := by decide
    omega
  · obtain ⟨kw, hkwmem, heq⟩ := mem_keywordFlags hkw
    have hlen := congrArg String.length heq
    rw [String.length_append] at hlen
    have h28 : ("Emergency keyword detected: ").length = 28 := by decide
    have h29 : ("Chest pain in elderly patient").length = 29 := by decide
    have hkw2 : ∀ kw ∈ emergencyKeywords, 2 ≤ kw.length := by decide
    have := hkw2 kw hkwmem
    omega
  · obtain ⟨s, _, heq⟩ := mem_severityFlags hsev
    exact highSeverityFlag_ne_chestFlag s heq.symm

/-- Witness for C10 on a zero-aged feverish patient (for whom the
keyword and severity passes also fire nothing). -/
theorem c10_age_zero_skips_age_rules_witness :
    (checkEmergencyIndicators { age := some 0, chief_complaint := some "fever" }).2 =
      keywordFlags { age := some 0, chief_complaint := some "fever" } ++
      severityFlags { age := some 0, chief_complaint := some "fever" } ∧
    "Fever in young child" ∉
      (checkEmergencyIndicators { age := some 0, chief_complaint := some "fever" }).2 ∧
    "Chest pain in elderly patient" ∉
      (checkEmergencyIndicators { age := some 0, chief_complaint := some "fever" }).2 :=
  c10_age_zero_skips_age_rules { age := some 0, chief_complaint := some "fever" }
    (Or.inl rfl)

/-- **C1 (amended)**: whenever an emergency indicator holds — an
emergency keyword occurs in the lowercased complaint-plus-symptoms text,
or the recorded severity is ≥ 8, or age ≥ 65 with "chest pain" in the
text, or a *recorded non-zero* age < 5 with "fever" in the text — the
engine short-circuits to the fixed EMERGENCY recommendation (priority 1,
0–5 minute wait, warning signs = the triggered flags) and submits no
query to the retrieval pipeline. -/
theorem c1_emergency_fast_path (pipeline : String → RAGResponse) (p : PatientInfo)
    (h : (∃ kw ∈ emergencyKeywords, containsStr (symptomsText p) kw = true) ∨
         (∃ s : Int, p.symptom_severity = some s ∧ 8 ≤ s) ∨
         (∃ a : Int, p.age = some a ∧ 65 ≤ a ∧
           containsStr (symptomsText p) "chest pain" = true) ∨
         (∃ a : Int, p.age = some a ∧ a ≠ 0 ∧ a < 5 ∧
           containsStr (symptomsText p) "fever" = true)) :
    (generateTriageRecommendation pipeline p).1.urgency_level = "EMERGENCY" ∧
    (generateTriageRecommendation pipeline p).1.priority_score = 1 ∧
    (generateTriageRecommendation pipeline p).1.estimated_wait_time = "0-5 minutes" ∧
    (generateTriageRecommendation pipeline p).1.warning_signs =
      (checkEmergencyIndicators p).2 ∧
    (generateTriageRecommendation pipeline p).2 = [] := by
  have hne : (checkEmergencyIndicators p).2 ≠ [] := by
    rw [checkEmergencyIndicators_snd]
    rcases h with ⟨kw, hmem, hc⟩ | ⟨s, hs, h8⟩ | ⟨a, ha, h65, hc⟩ | ⟨a, ha, hnz, h5, hc⟩
    · have hin : ("Emergency keyword detected: " ++ kw) ∈ keywordFlags p := by
        unfold keywordFlags
        exact List.mem_map.mpr ⟨kw, List.mem_filter.mpr ⟨hmem, hc⟩, rfl⟩
      exact List.ne_nil_of_mem (List.mem_append_left _ (List.mem_append_left _ hin))
    · have hin : ("High severity score: " ++ toString s ++ "/10") ∈ severityFlags p := by
        simp only [severityFlags, hs]
        rw [if_pos ⟨by omega, h8⟩]
        exact List.mem_singleton.mpr rfl
      exact List.ne_nil_of_mem (List.mem_append_left _ (List.mem_append_right _ hin))
    · have hin : ("Chest pain in elderly patient") ∈ ageFlags p := by
        simp only [ageFlags, ha]
        rw [if_pos (by omega : a ≠ 0)]
        exact List.mem_append_left _
          (by rw [if_pos ⟨h65, hc⟩]; exact List.mem_singleton.mpr rfl)
      exact List.ne_nil_of_mem (List.mem_append_right _ hin)
    · have hin : ("Fever in young child") ∈ ageFlags p := by
        simp only [ageFlags, ha]
        rw [if_pos hnz]
        exact List.mem_append_right _
          (by rw [if_pos ⟨h5, hc⟩]; exact List.mem_singleton.mpr rfl)
      exact List.ne_nil_of_mem (List.mem_append_right _ hin)
  have hfst : (checkEmergencyIndicators p).1 = true := by
    rw [checkEmergencyIndicators_fst]
    rw [← checkEmergencyIndicators_snd]
    simpa using hne
  have hgen : generateTriageRecommendation pipeline p =
      (generateEmergencyRecommendation (checkEmergencyIndicators p).2, []) := by
    simp [generateTriageRecommendation, hfst]
  rw [hgen]
  exact ⟨rfl, rfl, rfl, rfl, rfl⟩

/-- Witness for C1 via the elderly chest-pain rule (also a keyword hit). -/
theorem c1_emergency_fast_path_witness :
    (generateTriageRecommendation (fun _ => { answer := "", sources := [], confidence := 0 })
        { age := some 70, chief_complaint := some "mild chest pain" }).1.urgency_level =
      "EMERGENCY" ∧
    (generateTriageRecommendation (fun _ => { answer := "", sources := [], confidence := 0 })
        { age := some 70, chief_complaint := some "mild chest pain" }).1.priority_score = 1 ∧
    (generateTriageRecommendation (fun _ => { answer := "", sources := [], confidence := 0 })
        { age := some 70, chief_complaint := some "mild chest pain" }).1.estimated_wait_time =
      "0-5 minutes" ∧
    (generateTriageRecommendation (fun _ => { answer := "", sources := [], confidence := 0 })
        { age := some 70, chief_complaint := some "mild chest pain" }).1.warning_signs =
      (checkEmergencyIndicators { age := some 70, chief_complaint := some "mild chest pain" }).2 ∧
    (generateTriageRecommendation (fun _ => { answer := "", sources := [], confidence := 0 })
        { age := some 70, chief_complaint := some "mild chest pain" }).2 = [] :=
  c1_emergency_fast_path _ _ (Or.inl ⟨"chest pain", by decide, by decide⟩)

/-- Counterexample to C1 as frozen: a patient aged 0 with "fever" in the
complaint satisfies the claim's "age < 5 with fever" indicator, yet the
engine takes the non-emergency path (the truthiness guard skips the age
rules) and consults the retrieval pipeline. -/
theorem c1_emergency_fast_path_counterexample :
    ((0 : Int) < 5 ∧
      containsStr (symptomsText { age := some 0, chief_complaint := some "fever" })
        "fever" = true) ∧
    (generateTriageRecommendation (fun _ => { answer := "", sources := [], confidence := 0 })
        { age := some 0, chief_complaint := some "fever" }).1.urgency_level ≠ "EMERGENCY" ∧
    (generateTriageRecommendation (fun _ => { answer := "", sources := [], confidence := 0 })
        { age := some 0, chief_complaint := some "fever" }).2 ≠ [] := by
  exact ⟨⟨by norm_num, by decide⟩, by decide, by decide⟩

/-! ## C9: determinism of the fallback embedding strategy -/

/-- **C9**: with the deterministic fallback strategy configured,
`create_embeddings` is a pure function of the store state and the input
texts: two successive calls on identical input return identical vectors
(both equal to the `simple_embedding` map) and leave the state untouched. -/
theorem c9_fallback_embedding_deterministic (db : DBState) (texts : List String)
    (h : db.useCustomEmbeddings = true) :
    (createEmbeddings db texts).1 =
      (createEmbeddings (createEmbeddings db texts).2 texts).1 ∧
    (createEmbeddings db texts).1 = texts.map (simpleEmbedding db.wordHash) ∧
    (createEmbeddings db texts).2 = db ∧
    (createEmbeddings (createEmbeddings db texts).2 texts).2 = db := by
  simp [createEmbeddings, h]

/-- Witness for C9 on a concrete fallback-strategy store. -/
theorem c9_fallback_embedding_deterministic_witness :
    (createEmbeddings
        { records := [], useCustomEmbeddings := true, wordHash := fun _ => 0,
          learnedEncode := none } ["chest pain"]).1 =
      (createEmbeddings
        (createEmbeddings
          { records := [], useCustomEmbeddings := true, wordHash := fun _ => 0,
            learnedEncode := none } ["chest pain"]).2 ["chest pain"]).1 ∧
    (createEmbeddings
        { records := [], useCustomEmbeddings := true, wordHash := fun _ => 0,
          learnedEncode := none } ["chest pain"]).2 =
      { records := [], useCustomEmbeddings := true, wordHash := fun _ => 0,
        learnedEncode := none } := by
  have r := c9_fallback_embedding_deterministic
    { records := [], useCustomEmbeddings := true, wordHash := fun _ => 0,
      learnedEncode := none } ["chest pain"] rfl
  exact ⟨r.1, r.2.2.1⟩

/-! ## C8: shape and normalization of the fallback embedding -/

theorem preEmbedStep_length (wordHash : String → Int) (emb : List ℚ)
    (iw : Nat × String) : (preEmbedStep wordHash emb iw).length = emb.length := by
  simp only [preEmbedStep]
  split_ifs <;> simp [List.length_set]

theorem foldl_preEmbedStep_length (wordHash : String → Int)
    (l : List (Nat × String)) (emb : List ℚ) :
    (l.foldl (preEmbedStep wordHash) emb).length = emb.length := by
  induction l generalizing emb with
  | nil => rfl
  | cons a t ih => rw [List.foldl_cons, ih, preEmbedStep_length]

theorem preEmbedding_length (wordHash : String → Int) (text : String) :
    (preEmbedding wordHash text).length = 384 := by
  unfold preEmbedding preEmbed
  rw [foldl_preEmbedStep_length, List.length_replicate]

theorem sumSq_nonneg (l : List ℚ) : 0 ≤ (l.map (fun x => x * x)).sum := by
  refine List.sum_nonneg ?_
  intro a ha
  obtain ⟨x, _, rfl⟩ := List.mem_map.mp ha
  exact mul_self_nonneg x

theorem sumSq_eq_zero_iff (l : List ℚ) :
    (l.map (fun x => x * x)).sum = 0 ↔ ∀ x ∈ l, x = 0 := by
  induction l with
  | nil => simp
  | cons a t ih =>
    simp only [List.map_cons, List.sum_cons]
    constructor
    · intro h0
      have h1 : 0 ≤ a * a := mul_self_nonneg a
      have h2 : 0 ≤ (t.map (fun x => x * x)).sum := sumSq_nonneg t
      have ha : a * a = 0 := by linarith
      have ht : (t.map (fun x => x * x)).sum = 0 := by linarith
      intro x hx
      rcases List.mem_cons.mp hx with rfl | hx
      · exact mul_self_eq_zero.mp ha
      · exact ih.mp ht x hx
    · intro hall
      have ha : a = 0 := hall a (List.mem_cons_self a t)
      have ht : (t.map (fun x => x * x)).sum = 0 :=
        ih.mpr (fun x hx => hall x (List.mem_cons_of_mem a hx))
      rw [ha, ht]
      ring

theorem sum_map_div (l : List ℝ) (c : ℝ) :
    (l.map (fun x => x / c)).sum = l.sum / c := by
  induction l with
  | nil => simp
  | cons a t ih => simp [ih, add_div]

theorem cast_sumSq (l : List ℚ) :
    (((l.map (fun x => x * x)).sum : ℚ) : ℝ) =
      (l.map (fun (x : ℚ) => (x : ℝ) * (x : ℝ))).sum := by
  induction l with
  | nil => simp
  | cons a t ih =>
    simp only [List.map_cons, List.sum_cons, Rat.cast_add, Rat.cast_mul]
    rw [ih]

theorem l2norm_normalize (l : List ℚ) (h : 0 < (l.map (fun x => x * x)).sum) :
    l2norm (l.map (fun (x : ℚ) =>
      (x : ℝ) / Real.sqrt (((l.map (fun x => x * x)).sum : ℚ) : ℝ))) = 1 := by
  have hSpos : (0 : ℝ) < (((l.map (fun x => x * x)).sum : ℚ) : ℝ) := by
    exact_mod_cast h
  unfold l2norm
  rw [List.map_map]
  have hcong : l.map ((fun x => x * x) ∘ (fun (x : ℚ) =>
        (x : ℝ) / Real.sqrt (((l.map (fun x => x * x)).sum : ℚ) : ℝ))) =
      (l.map (fun (x : ℚ) => (x : ℝ) * (x : ℝ))).map
        (fun y => y / (((l.map (fun x => x * x)).sum : ℚ) : ℝ)) := by
    rw [List.map_map]
    refine List.map_congr_left ?_
    intro x _
    simp only [Function.comp]
    rw [div_mul_div_comm,
        Real.mul_self_sqrt (le_of_lt hSpos)]
  rw [hcong, sum_map_div, ← cast_sumSq,
      div_self (ne_of_gt hSpos), Real.sqrt_one]

/-- **C8**: the fallback embedding always has length 384; it depends only
on the first 20 whitespace tokens of the lowercased text; whenever the
accumulated vector is non-zero the stored vector has L2 norm 1 (well
within the 1e-6 tolerance); and a zero accumulated vector is returned
unchanged. -/
theorem c8_fallback_embedding_normalized (wordHash : String → Int) (text : String) :
    (simpleEmbedding wordHash text).length = 384 ∧
    (∀ text2 : String,
      (pySplit (pyLower text)).take 20 = (pySplit (pyLower text2)).take 20 →
      simpleEmbedding wordHash text = simpleEmbedding wordHash text2) ∧
    (preEmbedding wordHash text ≠ List.replicate 384 (0 : ℚ) →
      |l2norm (simpleEmbedding wordHash text) - 1| ≤ 1 / 1000000) ∧
    (preEmbedding wordHash text = List.replicate 384 (0 : ℚ) →
      simpleEmbedding wordHash text = List.replicate 384 (0 : ℝ)) := by
  refine ⟨?_, ?_, ?_, ?_⟩
  · simp only [simpleEmbedding]
    split_ifs <;> rw [List.length_map] <;> exact preEmbedding_length _ _
  · intro text2 heq
    simp only [simpleEmbedding, preEmbedding]
    rw [heq]
  · intro hne
    have hlen : (preEmbedding wordHash text).length = 384 :=
      preEmbedding_length wordHash text
    have hnz : ¬ ∀ x ∈ preEmbedding wordHash text, x = 0 := by
      intro hall
      exact hne (List.eq_replicate_iff.mpr ⟨hlen, hall⟩)
    have hsum : 0 < ((preEmbedding wordHash text).map (fun x => x * x)).sum := by
      rcases lt_or_eq_of_le (sumSq_nonneg (preEmbedding wordHash text)) with hlt | heq0
      · exact hlt
      · exact absurd ((sumSq_eq_zero_iff _).mp heq0.symm) hnz
    have hbranch : simpleEmbedding wordHash text =
        (preEmbedding wordHash text).map (fun (x : ℚ) =>
          (x : ℝ) / Real.sqrt ((((preEmbedding wordHash text).map
            (fun x => x * x)).sum : ℚ) : ℝ)) := by
      simp only [simpleEmbedding]
      rw [if_pos hsum]
    rw [hbranch, l2norm_normalize _ hsum]
    norm_num
  · intro hzero
    have hsum : ((preEmbedding wordHash text).map (fun x => x * x)).sum = 0 := by
      rw [hzero, List.map_replicate, List.sum_replicate]
      norm_num
    simp only [simpleEmbedding]
    rw [if_neg (by rw [hsum]; exact lt_irrefl 0), hzero, List.map_replicate]
    norm_num

set_option maxRecDepth 8000 in
/-- Witness for C8 on the text `"pain"` with the zero word hash: the
accumulated vector is non-zero (entry 0 equals 3), so the stored vector
is unit-norm. -/
theorem c8_fallback_embedding_normalized_witness :
    (simpleEmbedding (fun _ => 0) "pain").length = 384 ∧
    |l2norm (simpleEmbedding (fun _ => 0) "pain") - 1| ≤ 1 / 1000000 := by
  have r := c8_fallback_embedding_normalized (fun _ => 0) "pain"
  refine ⟨r.1, r.2.2.1 ?_⟩
  intro hrep
  have h0 : (preEmbedding (fun _ => 0) "pain").getD 0 0 = 0 := by
    rw [hrep]
    simp
  rw [show (preEmbedding (fun _ => 0) "pain").getD 0 0 = 3 from by
    simp [preEmbedding, preEmbed, preEmbedStep, pySplit, pySplitAux,
      List.enum, List.enumFrom]
    norm_num] at h0
  norm_num at h0

/-! ## C6: id assignment in `add_documents` -/

theorem digitsVal_append (ds : List Nat) (d : Nat) :
    digitsVal (ds ++ [d]) = digitsVal ds * 10 + d := by
  unfold digitsVal
  rw [List.foldl_append]
  rfl

theorem decDigits_spec (fuel : Nat) : ∀ n : Nat, n < fuel →
    decDigits fuel n ≠ [] ∧ (∀ d ∈ decDigits fuel n, d < 10) ∧
    digitsVal (decDigits fuel n) = n := by
  induction fuel with
  | zero => intro n h; exact absurd h (Nat.not_lt_zero n)
  | succ fuel ih =>
    intro n hn
    by_cases h10 : n < 10
    · have heq : decDigits (fuel + 1) n = [n] := by simp [decDigits, h10]
      refine ⟨by simp [heq], ?_, ?_⟩
      · intro d hd
        rw [heq, List.mem_singleton] at hd
        omega
      · rw [heq]
        simp [digitsVal]
    · have hdiv : n / 10 < fuel := by
        have h1 : n / 10 < n := Nat.div_lt_self (by omega) (by omega)
        omega
      obtain ⟨hne, hdig, hval⟩ := ih (n / 10) hdiv
      have heq : decDigits (fuel + 1) n = decDigits fuel (n / 10) ++ [n % 10] := by
        simp [decDigits, h10]
      refine ⟨by simp [heq], ?_, ?_⟩
      · intro d hd
        rw [heq] at hd
        rcases List.mem_append.mp hd with hd | hd
        · exact hdig d hd
        · rw [List.mem_singleton] at hd
          subst hd
          exact Nat.mod_lt n (by omega)
      · rw [heq, digitsVal_append, hval]
        omega

theorem digitChar_isDigit : ∀ d : Nat, d < 10 → (Nat.digitChar d).isDigit = true := by
  decide

theorem charVal_digitChar : ∀ d : Nat, d < 10 → charVal (Nat.digitChar d) = d := by
  decide

theorem decRepr_digits (n : Nat) : ∀ c ∈ (decRepr n).data, c.isDigit = true := by
  intro c hc
  have hc2 : c ∈ (decDigits (n + 1) n).map Nat.digitChar := hc
  obtain ⟨d, hd, rfl⟩ := List.mem_map.mp hc2
  exact digitChar_isDigit d ((decDigits_spec (n + 1) n (Nat.lt_succ_self n)).2.1 d hd)

theorem map_charVal_decRepr (n : Nat) :
    (decRepr n).data.map charVal = decDigits (n + 1) n := by
  show ((decDigits (n + 1) n).map Nat.digitChar).map charVal = _
  rw [List.map_map]
  have : ∀ d ∈ decDigits (n + 1) n, (charVal ∘ Nat.digitChar) d = d := by
    intro d hd
    exact charVal_digitChar d ((decDigits_spec (n + 1) n (Nat.lt_succ_self n)).2.1 d hd)
  rw [List.map_congr_left this]
  simp

theorem takeWhile_all_append (p : Char → Bool) (l : List Char) (x : Char)
    (r : List Char) (hl : ∀ c ∈ l, p c = true) (hx : p x = false) :
    (l ++ x :: r).takeWhile p = l := by
  induction l with
  | nil => simp [List.takeWhile_cons, hx]
  | cons a t ih =>
    have ha : p a = true := hl a (List.mem_cons_self a t)
    rw [List.cons_append, List.takeWhile_cons, ha]
    simp only [if_true]
    rw [ih (fun c hc => hl c (List.mem_cons_of_mem a hc))]

/-- Splitting `"{source}_{index}"` at its last underscore recovers the
index, whatever the source string is. -/
theorem extractIndex_id (source : String) (n : Nat) :
    extractIndex (source ++ "_" ++ decRepr n) = n := by
  unfold extractIndex
  rw [String.data_append, String.data_append]
  have h1 : ((source.data ++ ("_" : String).data) ++ (decRepr n).data).reverse =
      (decRepr n).data.reverse ++ ('_' :: source.data.reverse) := by
    rw [List.reverse_append, List.reverse_append,
        show ("_" : String).data = ['_'] from rfl]
    rfl
  rw [h1, takeWhile_all_append _ _ _ _
      (fun c hc => decRepr_digits n c (List.mem_reverse.mp hc)) (by decide),
    List.reverse_reverse, map_charVal_decRepr]
  exact (decDigits_spec (n + 1) n (Nat.lt_succ_self n)).2.2

theorem buildIds_length : ∀ (docs : List Document) (k : Nat),
    (buildIds k docs).length = docs.length := by
  intro docs
  induction docs with
  | nil => intro k; rfl
  | cons d t ih => intro k; simp [buildIds, ih]

theorem mem_buildIds_ge : ∀ (docs : List Document) (k : Nat) (x : String),
    x ∈ buildIds k docs → k ≤ extractIndex x := by
  intro docs
  induction docs with
  | nil => intro k x hx; cases hx
  | cons d t ih =>
    intro k x hx
    rcases List.mem_cons.mp hx with rfl | hx
    · rw [extractIndex_id]
    · have := ih (k + 1) x hx
      omega

theorem buildIds_nodup : ∀ (docs : List Document) (k : Nat),
    (buildIds k docs).Nodup := by
  intro docs
  induction docs with
  | nil => intro k; exact List.nodup_nil
  | cons d t ih =>
    intro k
    refine List.nodup_cons.mpr ⟨?_, ih (k + 1)⟩
    intro hmem
    have hge := mem_buildIds_ge t (k + 1) _ hmem
    rw [extractIndex_id] at hge
    omega

theorem buildIds_get? : ∀ (docs : List Document) (k i : Nat) (d : Document),
    docs.get? i = some d →
    (buildIds k docs).get? i = some (d.source ++ "_" ++ decRepr (k + i)) := by
  intro docs
  induction docs with
  | nil => intro k i d h; cases h
  | cons a t ih =>
    intro k i d h
    cases i with
    | zero =>
      have ha : a = d := by simpa using h
      subst ha
      rfl
    | succ i =>
      have ht : t.get? i = some d := by simpa using h
      have hrec := ih (k + 1) i d ht
      have harith : k + (i + 1) = (k + 1) + i := by omega
      rw [show buildIds k (a :: t) =
            (a.source ++ "_" ++ decRepr k) :: buildIds (k + 1) t from rfl,
          List.get?_cons_succ, harith]
      exact hrec

theorem createEmbeddings_snd (db : DBState) (texts : List String) :
    (createEmbeddings db texts).2 = db := by
  unfold createEmbeddings
  split_ifs
  · rfl
  · rcases hle : db.learnedEncode with _ | enc <;> simp [hle]

theorem zipRecords_map_id : ∀ (ids texts : List String)
    (metas : List (List (String × String))) (embs : List (List ℝ)),
    texts.length = ids.length → metas.length = ids.length →
    embs.length = ids.length →
    (zipRecords ids texts metas embs).map (fun r => r.id) = ids := by
  intro ids
  induction ids with
  | nil =>
    intro texts metas embs _ _ _
    cases texts <;> cases metas <;> cases embs <;> rfl
  | cons i is ih =>
    intro texts metas embs ht hm he
    cases texts with
    | nil => simp at ht
    | cons t ts =>
      cases metas with
      | nil => simp at hm
      | cons m ms =>
        cases embs with
        | nil => simp at he
        | cons e es =>
          simp only [zipRecords, List.map_cons]
          rw [ih ts ms es (by simpa using ht) (by simpa using hm) (by simpa using he)]

/-- **C6 (amended)**: `add_documents` appends one record per document
whose id is `"{source}_{i}"` where `i` is the document's position in the
whole list passed to the call (not its sequential index within its own
source), and the ids assigned in one build are pairwise distinct.  The
hypothesis is the embedding-provider contract: one embedding per input
text. -/
theorem c6_ids_global_index (db : DBState) (docs : List Document)
    (henc : ((createEmbeddings db (docs.map (fun d => d.content))).1).length =
      docs.length) :
    (addDocuments db docs).records.map (fun r => r.id) =
      db.records.map (fun r => r.id) ++ buildIds 0 docs ∧
    (buildIds 0 docs).Nodup ∧
    (∀ i d, docs.get? i = some d →
      (buildIds 0 docs).get? i = some (d.source ++ "_" ++ decRepr i)) := by
  refine ⟨?_, buildIds_nodup docs 0, ?_⟩
  · by_cases hd : docs = []
    · subst hd
      simp [addDocuments, buildIds]
    · simp only [addDocuments, if_neg hd, createEmbeddings_snd]
      rw [List.map_append]
      congr 1
      refine zipRecords_map_id _ _ _ _ ?_ ?_ ?_
      · rw [List.length_map, buildIds_length]
      · rw [List.length_map, buildIds_length]
      · rw [buildIds_length]
        exact henc
  · intro i d h
    simpa using buildIds_get? docs 0 i d h

/-- Witness for C6 on a two-source build with the fallback embedder. -/
theorem c6_ids_global_index_witness :
    (addDocuments
        { records := [], useCustomEmbeddings := true, wordHash := fun _ => 0,
          learnedEncode := none }
        [{ content := "a", metadata := [], source := "alpha" },
         { content := "b", metadata := [], source := "beta" }]).records.map
        (fun r => r.id) = ["alpha_0", "beta_1"] ∧
    (buildIds 0
        [{ content := "a", metadata := [], source := "alpha" },
         { content := "b", metadata := [], source := "beta" }]).Nodup := by
  have r := c6_ids_global_index
    { records := [], useCustomEmbeddings := true, wordHash := fun _ => 0,
      learnedEncode := none }
    [{ content := "a", metadata := [], source := "alpha" },
     { content := "b", metadata := [], source := "beta" }] rfl
  refine ⟨?_, r.2.1⟩
  rw [r.1]
  decide

/-- Counterexample to C6 as frozen: with two documents from different
sources, the second stored id is `"beta_1"` (global index), not the
`"beta_0"` the within-source indexing of the claim would give. -/
theorem c6_ids_global_index_counterexample :
    (addDocuments
        { records := [], useCustomEmbeddings := true, wordHash := fun _ => 0,
          learnedEncode := none }
        [{ content := "a", metadata := [], source := "alpha" },
         { content := "b", metadata := [], source := "beta" }]).records.map
        (fun r => r.id) = ["alpha_0", "beta_1"] ∧
    withinSourceIds
        [{ content := "a", metadata := [], source := "alpha" },
         { content := "b", metadata := [], source := "beta" }] =
      ["alpha_0", "beta_0"] ∧
    (addDocuments
        { records := [], useCustomEmbeddings := true, wordHash := fun _ => 0,
          learnedEncode := none }
        [{ content := "a", metadata := [], source := "alpha" },
         { content := "b", metadata := [], source := "beta" }]).records.map
        (fun r => r.id) ≠
      withinSourceIds
        [{ content := "a", metadata := [], source := "alpha" },
         { content := "b", metadata := [], source := "beta" }] := by
  refine ⟨by decide, by decide, by decide⟩

end SPF
